import Mathlib

/- Formalization of the ToonamiAftermath EPG scraper (toonami_aftermath.py).
The Python program is embedded shallowly: every operation relevant to the
stated properties is translated into an executable Lean definition, and the
properties are proved about those definitions.  External collaborators
(dateutil parsing/formatting, urllib quoting, the HTTP transport, the
dicttoxml/xsdata JSON-to-record bridge) are modelled as explicit function
parameters, since the program only composes their results. -/

namespace ToonamiAftermath

/-- str() applied to a Python value that is either a string or None:
Python renders None as the text "None". -/
def strOf : Option String → String
  | some s => s
  | none => "None"

/-- Inputs accepted by get_proper_date_time: a datetime object (modelled as
minutes on a linear clock), a string, or None. -/
inductive DateTimeValue where
  | pyNone : DateTimeValue
  | str (s : String) : DateTimeValue
  | dt (minutes : Nat) : DateTimeValue
deriving DecidableEq, Repr

/-- External collaborators used by the scraper, as pure functions:
dateutil parser.parse followed by formatting, datetime.strftime,
urllib.parse.quote, and the xmltv rating-system lookup. -/
structure Ext where
  parseFormat : String → String → String
  strftime : Nat → String → String
  quote : String → String
  ratingOf : Option String → String

/-- Format constant _NEW_DATE_FORMAT_MINIMAL from the source. -/
def NEW_DATE_FORMAT_MINIMAL : String := "%Y%m%d"

/-- Format constant _NEW_DATE_FORMAT from the source. -/
def NEW_DATE_FORMAT : String := "%Y%m%d%H%M%S %z"

/-- Format constant _NEW_DATE_FORMAT_NO_TZ from the source. -/
def NEW_DATE_FORMAT_NO_TZ : String := "%Y%m%d%H%M%S"

/-- ToonamiAftermath.get_proper_date_time: if the input is the empty string
or None the guard fails and the function falls through to an implicit
None; a datetime is rendered with strftime; any other string is parsed by
dateutil and re-rendered in the requested format. -/
def get_proper_date_time (E : Ext) (date_time_string : DateTimeValue) (new_format : String) : Option String :=
  match date_time_string with
  | DateTimeValue.pyNone => none
  | DateTimeValue.str s => if s = "" then none else some (E.parseFormat s new_format)
  | DateTimeValue.dt d => some (E.strftime d new_format)

/-- Python values reaching CustomStringConverter.deserialize: strings and
non-string shapes (numbers, None, containers). -/
inductive PyValue where
  | str (s : String) : PyValue
  | intV (n : Int) : PyValue
  | noneV : PyValue
  | listV (n : Nat) : PyValue
deriving DecidableEq, Repr

namespace CustomStringConverter

/-- The fixed denylist _EXCLUDED_STRINGS of CustomStringConverter. -/
def EXCLUDED_STRINGS : List String :=
  ["a.k.a. Cartoon", "IMDbPro", "See full cast & crew", "See more"]

/-- CustomStringConverter.deserialize: a string on the denylist becomes
None, any other string is returned as is, and a non-string value falls
through the isinstance guard to an implicit None. -/
def deserialize : PyValue → Option String
  | PyValue.str s => if s ∈ EXCLUDED_STRINGS then none else some s
  | _ => none

end CustomStringConverter

/-- Modelled from the spec: the taChannels.Element record (the channels.xml
data model is not part of the scraped source file).  Per the spec a channel
descriptor carries id, display name, language, icon URL, stream URL,
optional schedule URL, optional metadata-query base URL, UTC offset string,
country and group. -/
structure ChannelElement where
  id : String
  displayName : String
  lang : String
  icon : String
  url : String
  scheduleUrl : Option String := none
  episodeQueryUrl : String := ""
  offset : String := ""
  country : String := ""
  group : String := ""
deriving DecidableEq, Repr

/-- Modelled from the spec: taChannels.Element.getScheduleUrl builds the
fetch URL by embedding the item count into the channel's schedule URL. -/
def getScheduleUrl (scheduleUrl : String) (guide_items_count : Nat) : String :=
  scheduleUrl ++ "&count=" ++ toString guide_items_count

/-- Modelled from the spec: the nested info record of a raw schedule entry,
holding an optional full name and an optional year. -/
structure InfoElement where
  fullname : Option String := none
  year : Option String := none
deriving DecidableEq, Repr

/-- Modelled from the spec: the media.Element record produced by bridging a
raw schedule JSON entry (startDate, name/blockName, episodeNumber, info)
and then mutated in place by get_media (stopDate, queryUrl, lang,
channelUrl, channel). -/
structure MediaElement where
  startDate : Option String := none
  stopDate : Option String := none
  name : Option String := none
  blockName : Option String := none
  episodeNumber : Option String := none
  info : Option InfoElement := none
  queryUrl : Option String := none
  lang : Option String := none
  channelUrl : Option String := none
  channel : Option String := none
deriving DecidableEq, Repr

/-- Title resolution inside get_media: when name is None and blockName is
not None, name is replaced by blockName; otherwise name is kept. -/
def resolveName (m : MediaElement) : Option String :=
  match m.name with
  | some n => some n
  | none => m.blockName

/-- The metadata query URL built by get_media: the channel's episode query
base plus the URL-quoted full name (preferred) or resolved name, plus the
year and episode number query parameters when present. -/
def buildQueryUrl (E : Ext) (ch : ChannelElement) (m : MediaElement) (n : String) : String :=
  let episode_urlized :=
    match m.info with
    | some i =>
      match i.fullname with
      | some f => E.quote f
      | none => E.quote n
    | none => E.quote n
  let u := ch.episodeQueryUrl ++ "?name=" ++ episode_urlized
  let u :=
    match m.info with
    | some i =>
      match i.year with
      | some y => u ++ "&year=" ++ y
      | none => u
    | none => u
  match m.episodeNumber with
  | some e => u ++ "&episode=" ++ e
  | none => u

/-- One iteration of the get_media element loop.  nextStart is the raw
startDate of the following element when one exists.  The result pairs the
processed element with the metadata URL passed to get_media_info, when the
title resolves. -/
def processElement (E : Ext) (ch : ChannelElement) (nextStart : Option (Option String)) (m0 : MediaElement) : MediaElement × Option String :=
  let m1 : MediaElement :=
    match nextStart with
    | some ns =>
      { m0 with stopDate := get_proper_date_time E (DateTimeValue.str (strOf ns ++ ch.offset)) NEW_DATE_FORMAT }
    | none => m0
  let m2 : MediaElement := { m1 with name := resolveName m1 }
  match m2.name with
  | none => (m2, none)
  | some n =>
    let q := buildQueryUrl E ch m2 n
    ({ m2 with
        queryUrl := some q, lang := some ch.lang, channelUrl := some ch.url,
        startDate := get_proper_date_time E (DateTimeValue.str (strOf m2.startDate ++ ch.offset)) NEW_DATE_FORMAT,
        channel := some ch.id },
     some q)

/-- The whole get_media element loop over one channel's raw schedule: each
element sees the raw startDate of its successor (the successor has not yet
been processed when it is read), every element is appended to the media
guide, and the metadata URLs fetched by get_media_info are collected in
order. -/
def processMedia (E : Ext) (ch : ChannelElement) : List MediaElement → List MediaElement × List String
  | [] => ([], [])
  | [m] => ([(processElement E ch none m).1], ((processElement E ch none m).2).toList)
  | m :: m2 :: rest =>
    ((processElement E ch (some m2.startDate) m).1 :: (processMedia E ch (m2 :: rest)).1,
     ((processElement E ch (some m2.startDate) m).2).toList ++ (processMedia E ch (m2 :: rest)).2)

theorem processMedia_length (E : Ext) (ch : ChannelElement) :
    ∀ es : List MediaElement, (processMedia E ch es).1.length = es.length := by
  intro es
  induction es with
  | nil => rfl
  | cons m rest ih =>
    cases rest with
    | nil => rfl
    | cons m2 rest2 => simpa [processMedia] using ih

theorem processMedia_fst_getElem? (E : Ext) (ch : ChannelElement) :
    ∀ (es : List MediaElement) (i : Nat),
      (processMedia E ch es).1[i]?
        = (es[i]?).map (fun m =>
            (processElement E ch ((es[i+1]?).map (fun m2 => m2.startDate)) m).1) := by
  intro es
  induction es with
  | nil => intro i; simp [processMedia]
  | cons m rest ih =>
    intro i
    cases rest with
    | nil =>
      cases i with
      | zero => simp [processMedia]
      | succ j => simp [processMedia]
    | cons m2 rest2 =>
      cases i with
      | zero => simp [processMedia]
      | succ j => simpa [processMedia] using ih j

theorem processElement_queryUrl_of_unresolved (E : Ext) (ch : ChannelElement)
    (ns : Option (Option String)) (m : MediaElement)
    (h : resolveName m = none) :
    (processElement E ch ns m).1.queryUrl = m.queryUrl := by
  cases ns <;> simp [processElement, resolveName] at h ⊢ <;>
    rcases hm : m.name with _ | n <;> simp [hm] at h ⊢ <;> simp [h]

theorem processElement_snd_eq_queryUrl (E : Ext) (ch : ChannelElement)
    (ns : Option (Option String)) (m : MediaElement)
    (h : m.queryUrl = none) :
    (processElement E ch ns m).2 = (processElement E ch ns m).1.queryUrl := by
  cases ns <;>
    rcases hm : m.name with _ | n <;>
      rcases hb : m.blockName with _ | b <;>
        simp [processElement, resolveName, hm, hb, h]

theorem processMedia_snd_eq_filterMap (E : Ext) (ch : ChannelElement) :
    ∀ es : List MediaElement, (∀ m ∈ es, m.queryUrl = none) →
      (processMedia E ch es).2
        = (processMedia E ch es).1.filterMap (fun x => x.queryUrl) := by
  intro es
  induction es with
  | nil => intro _; rfl
  | cons m rest ih =>
    intro h
    have hm : m.queryUrl = none := h m (by simp)
    have hrest : ∀ x ∈ rest, x.queryUrl = none := fun x hx => h x (by simp [hx])
    cases rest with
    | nil =>
      have := processElement_snd_eq_queryUrl E ch none m hm
      simp [processMedia, this]
      cases hq : (processElement E ch none m).1.queryUrl <;>
        simp [List.filterMap_cons, hq]
    | cons m2 rest2 =>
      have hfst := processElement_snd_eq_queryUrl E ch (some m2.startDate) m hm
      have := ih hrest
      simp [processMedia, hfst, this]
      cases hq : (processElement E ch (some m2.startDate) m).1.queryUrl <;>
        simp [List.filterMap_cons, hq]

theorem processElement_stopDate_some (E : Ext) (ch : ChannelElement)
    (ns : Option String) (m : MediaElement) :
    (processElement E ch (some ns) m).1.stopDate
      = get_proper_date_time E (DateTimeValue.str (strOf ns ++ ch.offset)) NEW_DATE_FORMAT := by
  rcases hm : m.name with _ | n <;> rcases hb : m.blockName with _ | b <;>
    simp [processElement, resolveName, hm, hb]

theorem processElement_stopDate_none (E : Ext) (ch : ChannelElement) (m : MediaElement) :
    (processElement E ch none m).1.stopDate = m.stopDate := by
  rcases hm : m.name with _ | n <;> rcases hb : m.blockName with _ | b <;>
    simp [processElement, resolveName, hm, hb]

theorem processElement_name (E : Ext) (ch : ChannelElement)
    (ns : Option (Option String)) (m : MediaElement) :
    (processElement E ch ns m).1.name = resolveName m := by
  cases ns <;> rcases hm : m.name with _ | n <;> rcases hb : m.blockName with _ | b <;>
    simp [processElement, resolveName, hm, hb]

theorem processElement_startDate_resolved (E : Ext) (ch : ChannelElement)
    (ns : Option (Option String)) (m : MediaElement)
    (h : resolveName m ≠ none) :
    (processElement E ch ns m).1.startDate
      = get_proper_date_time E (DateTimeValue.str (strOf m.startDate ++ ch.offset)) NEW_DATE_FORMAT := by
  cases ns <;> rcases hm : m.name with _ | n <;> rcases hb : m.blockName with _ | b <;>
    simp [processElement, resolveName, hm, hb] at h ⊢

/-- C1: in a fetched schedule (whose raw entries carry no stop time), every
normalized entry except the last gets as its stop time the next raw entry's
start time with the channel offset appended, run through the reformatter;
whenever the next entry resolves a title this coincides with that entry's
own normalized start time; and the final normalized entry has no stop
time. -/
theorem claim_C1 (E : Ext) (ch : ChannelElement) (es : List MediaElement)
    (hraw : ∀ m ∈ es, m.stopDate = none) :
    (∀ i : Nat, i + 1 < es.length →
      ((processMedia E ch es).1[i]?.map (fun m => m.stopDate)
          = (es[i+1]?).map (fun m =>
              get_proper_date_time E (DateTimeValue.str (strOf m.startDate ++ ch.offset)) NEW_DATE_FORMAT)
        ∧ (∀ m2 : MediaElement, es[i+1]? = some m2 → resolveName m2 ≠ none →
            (processMedia E ch es).1[i]?.map (fun m => m.stopDate)
              = (processMedia E ch es).1[i+1]?.map (fun m => m.startDate))))
    ∧ (∀ m : MediaElement, (processMedia E ch es).1.getLast? = some m → m.stopDate = none) := by
  constructor
  · intro i hi
    have hlt : i < es.length := by omega
    have ha : es[i]? = some es[i] := List.getElem?_eq_getElem hlt
    have hb : es[i+1]? = some es[i+1] := List.getElem?_eq_getElem hi
    constructor
    · rw [processMedia_fst_getElem? E ch es i, ha, hb]
      simp [processElement_stopDate_some]
    · intro m2 hm2 hres
      rw [hb] at hm2
      have hm2e := Option.some.inj hm2
      subst hm2e
      rw [processMedia_fst_getElem? E ch es i, processMedia_fst_getElem? E ch es (i+1),
        ha, hb]
      simp [processElement_stopDate_some,
        processElement_startDate_resolved E ch ((es[i+1+1]?).map (fun m2 => m2.startDate)) _ hres]
  · intro m hm
    rcases es with _ | ⟨e0, rest⟩
    · simp [processMedia] at hm
    · have hlen : (processMedia E ch (e0 :: rest)).1.length = (e0 :: rest).length :=
        processMedia_length E ch (e0 :: rest)
      rw [List.getLast?_eq_getElem?] at hm
      rw [hlen] at hm
      rw [processMedia_fst_getElem? E ch (e0 :: rest) ((e0 :: rest).length - 1)] at hm
      have hnone : (e0 :: rest)[(e0 :: rest).length - 1 + 1]? = none := by
        apply List.getElem?_eq_none
        simp
      rw [hnone] at hm
      obtain ⟨a, ha, ha2⟩ := Option.map_eq_some'.1 hm
      have hmem : a ∈ (e0 :: rest) := List.getElem?_mem ha
      have hstop : m.stopDate = a.stopDate := by
        rw [← ha2]
        simpa using processElement_stopDate_none E ch a
      rw [hstop]
      exact hraw a hmem

/-- C8: every normalized entry's resolved title is the raw entry's name when
present, otherwise its blockName; an entry resolving no title keeps an
absent lookup key; the full schedule (titled or not) is emitted; and the
metadata fetches are exactly the lookup keys of the emitted entries, so a
keyless entry triggers no enrichment fetch. -/
theorem claim_C8 (E : Ext) (ch : ChannelElement) (es : List MediaElement)
    (hraw : ∀ m ∈ es, m.queryUrl = none) :
    ((processMedia E ch es).1.length = es.length)
    ∧ (∀ (i : Nat) (m : MediaElement), es[i]? = some m →
        ((processMedia E ch es).1[i]?.map (fun x => x.name) = some (resolveName m))
        ∧ (resolveName m = none →
            (processMedia E ch es).1[i]?.map (fun x => x.queryUrl) = some none))
    ∧ ((processMedia E ch es).2 = (processMedia E ch es).1.filterMap (fun x => x.queryUrl)) := by
  refine ⟨processMedia_length E ch es, ?_, processMedia_snd_eq_filterMap E ch es hraw⟩
  intro i m hm
  have hmem : m ∈ es := List.getElem?_mem hm
  constructor
  · rw [processMedia_fst_getElem? E ch es i, hm]
    simp [processElement_name]
  · intro hres
    rw [processMedia_fst_getElem? E ch es i, hm]
    simp [processElement_queryUrl_of_unresolved E ch _ m hres, hraw m hmem]

/-- A concrete instantiation of the external collaborators, used by the
closed-form witnesses: parsing tags the string with the format, strftime
renders the clock value, quoting is the identity. -/
def extId : Ext where
  parseFormat := fun s f => s ++ "|" ++ f
  strftime := fun n f => toString n ++ "|" ++ f
  quote := fun s => s
  ratingOf := fun o => strOf o

/-- Outcome of one urlopen(...).read() call: a transport/connection error
(urllib.error.URLError) or a raw response body. -/
inductive HttpResult where
  | connectionError : HttpResult
  | body (raw : String) : HttpResult
deriving DecidableEq, Repr

/-- ToonamiAftermath.get_json_obj_from_url: a connection error is caught and
logged, falling through to an implicit None; a zero-length body is logged
and returns None; otherwise the body is parsed and wrapped in a singleton
list.  The jsonLoads parameter stands for json.loads composed with whatever
bridge consumes the parsed object. -/
def get_json_obj_from_url (respond : String → HttpResult) (jsonLoads : String → α)
    (json_url : String) : Option (List α) :=
  match respond json_url with
  | HttpResult.connectionError => none
  | HttpResult.body raw => if raw.length = 0 then none else some [jsonLoads raw]

/-- Modelled from the spec: the genres wrapper of a mediaInfo record (a JSON
list bridged into a tagged element holding the genre list). -/
structure GenresWrap where
  genres : List String := []
deriving DecidableEq, Repr

/-- Modelled from the spec: the productionCo wrapper of a mediaInfo record. -/
structure ProductionCoWrap where
  productionCo : List String := []
deriving DecidableEq, Repr

/-- Modelled from the spec: the creators wrapper of a mediaInfo record. -/
structure CreatorsWrap where
  creators : List String := []
deriving DecidableEq, Repr

/-- Modelled from the spec: the nested episode sub-record of a mediaInfo
record, holding season, episode number, name and summary. -/
structure EpisodeSub where
  season : Int := 0
  epNum : Int := 0
  name : Option String := none
  summary : Option String := none
deriving DecidableEq, Repr

/-- Modelled from the spec: the mediaInfo.Element record cached per lookup
key: genres, producers/writers, release date, summary, image URL, content
rating, numeric rating, name, optional episode sub-record, plus the
queryUrl key assigned when the record is stored. -/
structure MediaInfoElement where
  queryUrl : Option String := none
  genres : Option GenresWrap := none
  productionCo : Option ProductionCoWrap := none
  creators : Option CreatorsWrap := none
  releaseDate : Option String := none
  summary : Option String := none
  image : Option String := none
  contentRating : Option String := none
  rating : Option String := none
  name : Option String := none
  episode : Option EpisodeSub := none
deriving DecidableEq, Repr

/-- The linear scan over all_episodes.element used both by get_media_info
(with a present key) and by the guide assembler (with the programme's
optional key): the first element whose queryUrl equals the probe wins. -/
def lookupInfo (cache : List MediaInfoElement) (q : Option String) : Option MediaInfoElement :=
  cache.find? (fun e => e.queryUrl == q)

/-- ToonamiAftermath.get_media_info: if some cached element already carries
the URL as its key, nothing happens; otherwise the URL is fetched, a failed
or empty fetch stores nothing, and a successful fetch appends the bridged
record with its queryUrl set.  The Bool records whether a network fetch was
issued. -/
def get_media_info (respond : String → HttpResult) (infoOf : String → MediaInfoElement)
    (cache : List MediaInfoElement) (media_info_url : String) :
    List MediaInfoElement × Bool :=
  if (lookupInfo cache (some media_info_url)).isSome then
    (cache, false)
  else
    match get_json_obj_from_url respond infoOf media_info_url with
    | none => (cache, true)
    | some js => (cache ++ js.map (fun el => { el with queryUrl := some media_info_url }), true)

/-- C3: metadata enrichment is idempotent over the cache: a key that is
already present causes no network fetch and leaves the cache unchanged, one
enrichment step only ever appends to the cache, and a whole run's worth of
enrichment calls still only appends, so no stored entry is overwritten or
evicted. -/
theorem claim_C3 (respond : String → HttpResult) (infoOf : String → MediaInfoElement)
    (cache : List MediaInfoElement) (url : String) :
    ((lookupInfo cache (some url)).isSome →
      get_media_info respond infoOf cache url = (cache, false))
    ∧ (∃ rest, (get_media_info respond infoOf cache url).1 = cache ++ rest)
    ∧ (∀ urls : List String, ∃ rest,
        urls.foldl (fun c u => (get_media_info respond infoOf c u).1) cache = cache ++ rest) := by
  refine ⟨?_, ?_, ?_⟩
  · intro h
    simp [get_media_info, h]
  · by_cases h : (lookupInfo cache (some url)).isSome
    · exact ⟨[], by simp [get_media_info, h]⟩
    · cases hj : get_json_obj_from_url respond infoOf url with
      | none => exact ⟨[], by simp [get_media_info, h, hj]⟩
      | some js =>
        exact ⟨js.map (fun el => { el with queryUrl := some url }),
          by simp [get_media_info, h, hj]⟩
  · have step : ∀ (c : List MediaInfoElement) (u : String),
        ∃ r, (get_media_info respond infoOf c u).1 = c ++ r := by
      intro c u
      by_cases h : (lookupInfo c (some u)).isSome
      · exact ⟨[], by simp [get_media_info, h]⟩
      · cases hj : get_json_obj_from_url respond infoOf u with
        | none => exact ⟨[], by simp [get_media_info, h, hj]⟩
        | some js =>
          exact ⟨js.map (fun el => { el with queryUrl := some u }),
            by simp [get_media_info, h, hj]⟩
    intro urls
    induction urls generalizing cache with
    | nil => exact ⟨[], by simp⟩
    | cons u rest ih =>
      obtain ⟨r1, hr1⟩ := step cache u
      obtain ⟨r2, hr2⟩ := ih ((get_media_info respond infoOf cache u).1)
      refine ⟨r1 ++ r2, ?_⟩
      simp only [List.foldl_cons]
      rw [hr2, hr1, List.append_assoc]

/-- A concrete cached record under the key "k1", for the witnesses. -/
def infoK1 : MediaInfoElement := { queryUrl := some "k1", name := some "Cached Show" }

/-- Witness for C3 on a one-element cache probed with its own key "k1" and
then with the run ["k1", "k2"] against a responder that always fails. -/
theorem claim_C3_witness :
    ((lookupInfo [infoK1] (some "k1")).isSome = true)
    ∧ (get_media_info (fun _ => HttpResult.connectionError) (fun _ => { queryUrl := none })
        [infoK1] "k1" = ([infoK1], false))
    ∧ ((["k1", "k2"].foldl
        (fun c u => (get_media_info (fun _ => HttpResult.connectionError)
          (fun _ => { queryUrl := none }) c u).1) [infoK1]) = [infoK1] ++ []) := by
  have h := claim_C3 (fun _ => HttpResult.connectionError)
    (fun _ => { queryUrl := none }) [infoK1] "k1"
  exact ⟨by decide, h.1 (by decide), by decide⟩

/-- C5: a connection error or an empty body makes the JSON fetch yield
None; a schedule fetch yielding None adds nothing anywhere; and a metadata
fetch yielding None creates no cache entry for that key. -/
theorem claim_C5 (respond : String → HttpResult) (infoOf : String → MediaInfoElement)
    (cache : List MediaInfoElement) (url : String) :
    (respond url = HttpResult.connectionError →
      ∀ (jsonLoads : String → MediaInfoElement),
        get_json_obj_from_url respond jsonLoads url = none)
    ∧ (respond url = HttpResult.body "" →
      ∀ (jsonLoads : String → MediaInfoElement),
        get_json_obj_from_url respond jsonLoads url = none)
    ∧ (get_json_obj_from_url respond infoOf url = none →
        (get_media_info respond infoOf cache url).1 = cache) := by
  refine ⟨?_, ?_, ?_⟩
  · intro h jsonLoads
    simp [get_json_obj_from_url, h]
  · intro h jsonLoads
    simp [get_json_obj_from_url, h]
  · intro h
    by_cases hc : (lookupInfo cache (some url)).isSome
    · simp [get_media_info, hc]
    · simp [get_media_info, hc, h]

/-- Witness for C5 with a responder that fails on "u1" and returns an empty
body on "u2", probed against the empty cache. -/
theorem claim_C5_witness :
    (get_json_obj_from_url
      (fun u => if u = "u1" then HttpResult.connectionError else HttpResult.body "")
      (fun _ => ({ queryUrl := none } : MediaInfoElement)) "u1" = none)
    ∧ (get_json_obj_from_url
      (fun u => if u = "u1" then HttpResult.connectionError else HttpResult.body "")
      (fun _ => ({ queryUrl := none } : MediaInfoElement)) "u2" = none)
    ∧ ((get_media_info
      (fun u => if u = "u1" then HttpResult.connectionError else HttpResult.body "")
      (fun _ => ({ queryUrl := none } : MediaInfoElement)) [] "u1").1 = []) := by
  have h := claim_C5
    (fun u => if u = "u1" then HttpResult.connectionError else HttpResult.body "")
    (fun _ => ({ queryUrl := none } : MediaInfoElement)) [] "u1"
  have h2 := claim_C5
    (fun u => if u = "u1" then HttpResult.connectionError else HttpResult.body "")
    (fun _ => ({ queryUrl := none } : MediaInfoElement)) [] "u2"
  refine ⟨h.1 (by decide) _, h2.2.1 (by decide) _, h.2.2 (h.1 (by decide) _)⟩

/-- An xmltv Title element: the single content string (possibly None) and
the language tag. -/
structure Title where
  content : Option String
  lang : Option String
deriving DecidableEq, Repr

/-- An xmltv Category element. -/
structure Category where
  content : Option String
  lang : Option String
deriving DecidableEq, Repr

/-- An xmltv Credits element carrying producers and writers. -/
structure Credits where
  producer : List String
  writer : List String
deriving DecidableEq, Repr

/-- An xmltv Desc element. -/
structure Desc where
  content : Option String
  lang : Option String
deriving DecidableEq, Repr

/-- An xmltv SubTitle element. -/
structure SubTitle where
  content : Option String
  lang : Option String
deriving DecidableEq, Repr

/-- An xmltv EpisodeNum element in the xmltv_ns system. -/
structure EpisodeNum where
  content : String
deriving DecidableEq, Repr

/-- An xmltv StarRating element. -/
structure StarRating where
  value : String
deriving DecidableEq, Repr

/-- An xmltv Icon element. -/
structure Icon where
  src : Option String
deriving DecidableEq, Repr

/-- An xmltv Language element. -/
structure LangText where
  content : Option String
  lang : Option String
deriving DecidableEq, Repr

/-- An xmltv Programme element, with the fields populated by this program. -/
structure Programme where
  category : Option (List Category) := none
  channel : Option String := none
  credits : Option Credits := none
  date : Option String := none
  desc : Option (List Desc) := none
  episode_num : Option (List EpisodeNum) := none
  icon : Option (List Icon) := none
  language : Option LangText := none
  rating : Option (List String) := none
  start : Option String := none
  star_rating : Option (List StarRating) := none
  stop : Option String := none
  sub_title : Option (List SubTitle) := none
  title : List Title := []
deriving DecidableEq, Repr

/-- Conversion of an optional Python string into a get_proper_date_time
argument: None stays None, a string stays a string. -/
def optToDTV : Option String → DateTimeValue
  | none => DateTimeValue.pyNone
  | some s => DateTimeValue.str s

/-- A per-programme assembly failure, logged with the offending media
object and the matched metadata object. -/
abbrev AdaptLog := MediaElement × Option MediaInfoElement

/-- One iteration of adapt_media_objects_to_xmltv_object: the programme
assembled from a media object and its matched metadata, or the logged
failure when reading a nested optional field (genres, productionCo or
creators of a present metadata record being None) raises AttributeError. -/
def adaptOne (E : Ext) (cache : List MediaInfoElement) (m : MediaElement) :
    Except AdaptLog Programme :=
  let mi := lookupInfo cache m.queryUrl
  let titleContent : Option String :=
    match m.info with
    | some i =>
      match i.fullname with
      | some f => some f
      | none => m.name
    | none => m.name
  match mi with
  | none =>
    Except.ok
      { channel := m.channel,
        language := some { content := m.lang, lang := m.lang },
        start := m.startDate, stop := m.stopDate,
        title := [{ content := titleContent, lang := m.lang }] }
  | some info =>
    match info.genres, info.productionCo, info.creators with
    | some g, some p, some c =>
      let baseDesc : Option (List Desc) := some [{ content := info.summary, lang := m.lang }]
      let baseSub : Option (List SubTitle) := some [{ content := info.name, lang := m.lang }]
      let withEp :
          Option (List Desc) × Option (List EpisodeNum) × Option (List SubTitle) :=
        match info.episode with
        | none => (baseDesc, none, baseSub)
        | some ep =>
          (some [{ content := ep.summary, lang := m.lang }],
           some [{ content := toString (ep.season - 1) ++ "." ++ toString (ep.epNum - 1) ++ ".0/1" }],
           some [{ content := ep.name, lang := m.lang }])
      Except.ok
        { category := some (g.genres.map (fun genre => { content := some genre, lang := m.lang })),
          channel := m.channel,
          credits := some { producer := p.productionCo, writer := c.creators },
          date := get_proper_date_time E (optToDTV info.releaseDate) NEW_DATE_FORMAT_MINIMAL,
          desc := withEp.1,
          episode_num := withEp.2.1,
          icon := some [{ src := info.image }],
          language := some { content := m.lang, lang := m.lang },
          rating := some [E.ratingOf info.contentRating],
          start := m.startDate,
          star_rating := some [{ value := strOf info.rating ++ "/10" }],
          stop := m.stopDate,
          sub_title := withEp.2.2,
          title := [{ content := titleContent, lang := m.lang }] }
    | _, _, _ => Except.error (m, mi)

/-- The adapt_media_objects_to_xmltv_object loop: each media object is
adapted in order; a per-programme failure is logged and that programme is
skipped, and the loop continues with the remaining objects. -/
def adapt_media_objects (E : Ext) (cache : List MediaInfoElement) :
    List MediaElement → List Programme × List AdaptLog
  | [] => ([], [])
  | m :: rest =>
    match adaptOne E cache m with
    | Except.ok p =>
      ((adapt_media_objects E cache rest).1.cons p, (adapt_media_objects E cache rest).2)
    | Except.error l =>
      ((adapt_media_objects E cache rest).1, (adapt_media_objects E cache rest).2.cons l)

/-- C6: assembly is per-programme fault-isolated: the emitted programmes
are exactly the successful adaptations in order, the logged failures are
exactly the failing ones in order, every failure log carries the offending
media object together with its matched metadata object, and every input is
accounted for, so one failure drops only its own programme and never aborts
the loop. -/
theorem claim_C6 (E : Ext) (cache : List MediaInfoElement) (elems : List MediaElement) :
    ((adapt_media_objects E cache elems).1
        = elems.filterMap (fun m => (adaptOne E cache m).toOption))
    ∧ ((adapt_media_objects E cache elems).2
        = elems.filterMap (fun m =>
            match adaptOne E cache m with
            | Except.ok _ => none
            | Except.error l => some l))
    ∧ (∀ m ∈ elems, ∀ l : AdaptLog, adaptOne E cache m = Except.error l →
        l = (m, lookupInfo cache m.queryUrl))
    ∧ ((adapt_media_objects E cache elems).1.length
        + (adapt_media_objects E cache elems).2.length = elems.length) := by
  refine ⟨?_, ?_, ?_, ?_⟩
  · induction elems with
    | nil => rfl
    | cons m rest ih =>
      cases h : adaptOne E cache m with
      | ok p => simp [adapt_media_objects, h, List.filterMap_cons, Except.toOption, ih]
      | error l => simp [adapt_media_objects, h, List.filterMap_cons, Except.toOption, ih]
  · induction elems with
    | nil => rfl
    | cons m rest ih =>
      cases h : adaptOne E cache m with
      | ok p => simp [adapt_media_objects, h, List.filterMap_cons, ih]
      | error l => simp [adapt_media_objects, h, List.filterMap_cons, ih]
  · intro m _ l hl
    unfold adaptOne at hl
    rcases hmi : lookupInfo cache m.queryUrl with _ | info
    · simp [hmi] at hl
    · rcases hg : info.genres with _ | g <;>
        rcases hp : info.productionCo with _ | p <;>
          rcases hc : info.creators with _ | c <;>
            simp [hmi, hg, hp, hc] at hl <;> exact hl.symm
  · induction elems with
    | nil => rfl
    | cons m rest ih =>
      cases h : adaptOne E cache m with
      | ok p => simp [adapt_media_objects, h]; omega
      | error l => simp [adapt_media_objects, h]; omega

/-- A cached record under key "kBad" whose genres wrapper is absent, so
reading genres.genres raises AttributeError during assembly. -/
def infoBad : MediaInfoElement := { queryUrl := some "kBad", genres := none }

/-- A media element whose lookup key matches the well-formed cached record
infoGood. -/
def entryGood : MediaElement :=
  { startDate := some "s1", name := some "Good Show", queryUrl := some "kGood", lang := some "en" }

/-- A media element whose lookup key matches the broken cached record
infoBad. -/
def entryBad : MediaElement :=
  { startDate := some "s2", name := some "Bad Show", queryUrl := some "kBad", lang := some "en" }

/-- A well-formed cached record under key "kGood". -/
def infoGood : MediaInfoElement :=
  { queryUrl := some "kGood", genres := some { genres := ["Action"] },
    productionCo := some { productionCo := ["Studio"] },
    creators := some { creators := ["Author"] },
    rating := some "8.1", name := some "Good Show Full" }

/-- Witness for C6 on the two-element guide [entryGood, entryBad] against a
cache in which entryBad's metadata record has an absent genres wrapper: the
good programme is emitted, the bad one is dropped and logged with its own
identity, and both inputs are accounted for. -/
theorem claim_C6_witness :
    ((adapt_media_objects extId [infoGood, infoBad] [entryGood, entryBad]).1
        = [entryGood, entryBad].filterMap
            (fun m => (adaptOne extId [infoGood, infoBad] m).toOption))
    ∧ ((adapt_media_objects extId [infoGood, infoBad] [entryGood, entryBad]).2
        = [entryGood, entryBad].filterMap (fun m =>
            match adaptOne extId [infoGood, infoBad] m with
            | Except.ok _ => none
            | Except.error l => some l))
    ∧ ((adapt_media_objects extId [infoGood, infoBad] [entryGood, entryBad]).2
        = [(entryBad, lookupInfo [infoGood, infoBad] entryBad.queryUrl)])
    ∧ ((adapt_media_objects extId [infoGood, infoBad] [entryGood, entryBad]).1.length
        + (adapt_media_objects extId [infoGood, infoBad] [entryGood, entryBad]).2.length
        = ([entryGood, entryBad] : List MediaElement).length) := by
  have h := claim_C6 extId [infoGood, infoBad] [entryGood, entryBad]
  exact ⟨h.1, h.2.1, by rfl, h.2.2.2⟩

/-- A concrete channel with a schedule URL, for the witnesses. -/
def chanA : ChannelElement :=
  { id := "chA", displayName := "Channel A", lang := "en", icon := "iconA",
    url := "urlA", scheduleUrl := some "schedA", episodeQueryUrl := "queryA",
    offset := "-0500" }

/-- A concrete raw schedule entry with a name. -/
def entryA : MediaElement := { startDate := some "20240101120000", name := some "Show A" }

/-- A second concrete raw schedule entry with a name. -/
def entryB : MediaElement := { startDate := some "20240101130000", name := some "Show B" }

/-- A concrete raw schedule entry with neither name nor blockName. -/
def entryC : MediaElement := { startDate := some "20240101140000" }

/-- Witness for C1 on the two-entry schedule [entryA, entryB]. -/
theorem claim_C1_witness :
    (entryA.stopDate = none ∧ entryB.stopDate = none)
    ∧ ((processMedia extId chanA [entryA, entryB]).1[0]?.map (fun m => m.stopDate)
        = (([entryA, entryB] : List MediaElement)[1]?).map (fun m =>
            get_proper_date_time extId (DateTimeValue.str (strOf m.startDate ++ chanA.offset)) NEW_DATE_FORMAT))
    ∧ ((processMedia extId chanA [entryA, entryB]).1[0]?.map (fun m => m.stopDate)
        = (processMedia extId chanA [entryA, entryB]).1[1]?.map (fun m => m.startDate))
    ∧ ((processMedia extId chanA [entryA, entryB]).1.getLast?.map (fun m => m.stopDate)
        = some none) := by
  have h := claim_C1 extId chanA [entryA, entryB] (by decide)
  have h0 := h.1 0 (by decide)
  refine ⟨⟨rfl, rfl⟩, h0.1, h0.2 entryB rfl (by decide), ?_⟩
  cases hl : (processMedia extId chanA [entryA, entryB]).1.getLast? with
  | none => exact absurd hl (by decide)
  | some m => simp [h.2 m hl]

/-- Witness for C8 on the schedule [entryA, entryC], where entryC has no
resolvable title. -/
theorem claim_C8_witness :
    (entryA.queryUrl = none ∧ entryC.queryUrl = none)
    ∧ ((processMedia extId chanA [entryA, entryC]).1.length
        = ([entryA, entryC] : List MediaElement).length)
    ∧ ((processMedia extId chanA [entryA, entryC]).1[1]?.map (fun x => x.name)
        = some (resolveName entryC))
    ∧ ((processMedia extId chanA [entryA, entryC]).1[1]?.map (fun x => x.queryUrl)
        = some none)
    ∧ ((processMedia extId chanA [entryA, entryC]).2
        = (processMedia extId chanA [entryA, entryC]).1.filterMap (fun x => x.queryUrl)) := by
  have h := claim_C8 extId chanA [entryA, entryC] (by decide)
  have h1 := h.2.1 1 entryC rfl
  exact ⟨⟨rfl, rfl⟩, h.1, h1.1, h1.2 (by decide), h.2.2⟩

/-- datetime.now().replace(minute=0, second=0, microsecond=0) on the
minute-granular model clock: round down to the hour. -/
def topOfHour (now : Nat) : Nat := now - now % 60

/-- dateutil rrule with HOURLY frequency: the occurrences dtstart,
dtstart + 1h, dtstart + 2h, ... up to and INCLUSIVE of the until bound
(dateutil documents until as an inclusive upper bound), on the minute
clock, for bounds lying on the hour grid as get_media passes them. -/
def rruleHourly (dtstart untilT : Nat) : List Nat :=
  (List.range ((untilT - dtstart) / 60 + 1)).map (fun k => dtstart + 60 * k)

/-- The mock-guide branch of get_media for a channel without a schedule
URL: one placeholder programme per rrule occurrence between the top of the
current hour and the same time tomorrow, each one hour long and titled with
the channel's display name, appended directly to the TV object. -/
def mockGuide (E : Ext) (ch : ChannelElement) (now : Nat) : List Programme :=
  (rruleHourly (topOfHour now) (topOfHour now + 1440)).map (fun block =>
    { channel := some ch.id,
      icon := some [{ src := some ch.icon }],
      start := get_proper_date_time E (DateTimeValue.dt block) NEW_DATE_FORMAT_NO_TZ,
      stop := get_proper_date_time E (DateTimeValue.dt (block + 60)) NEW_DATE_FORMAT_NO_TZ,
      title := [{ content := some ch.displayName, lang := some ch.lang }] })

/-- The external network with its attached decoders: the HTTP transport,
the json.loads + dicttoxml + XmlParser bridge for a schedule body, and the
same bridge for a metadata body. -/
structure Net where
  respond : String → HttpResult
  scheduleOf : String → List MediaElement
  infoOf : String → MediaInfoElement

/-- The mutable aggregation state of one run: MEDIA_GUIDE_OBJECT.element,
TV_OBJECT.programme and all_episodes.element. -/
structure RunState where
  mediaGuide : List MediaElement
  programmes : List Programme
  cache : List MediaInfoElement
deriving DecidableEq, Repr

/-- ToonamiAftermath.get_media as a state transformer for one channel: a
channel with a schedule URL fetches it, bails out on a failed or empty
fetch, and otherwise normalizes the entries into the media guide while
enriching the cache; a channel without one appends the mock guide straight
to the TV object's programme list. -/
def get_media (E : Ext) (net : Net) (items now : Nat) (st : RunState) (ch : ChannelElement) : RunState :=
  match ch.scheduleUrl with
  | some su =>
    match get_json_obj_from_url net.respond net.scheduleOf (getScheduleUrl su items) with
    | none => st
    | some js =>
      { st with
          mediaGuide := st.mediaGuide ++ (processMedia E ch js.flatten).1,
          cache := ((processMedia E ch js.flatten).2).foldl
            (fun c u => (get_media_info net.respond net.infoOf c u).1) st.cache }
  | none => { st with programmes := st.programmes ++ mockGuide E ch now }

/-- ToonamiAftermath.main after loading: fold get_media over the catalog,
then adapt the accumulated media guide onto the TV object's programme list.
Returns the final state together with the assembly failure log. -/
def runPipeline (E : Ext) (net : Net) (items now : Nat)
    (channels : List ChannelElement) (initCache : List MediaInfoElement) :
    RunState × List AdaptLog :=
  let st := channels.foldl (get_media E net items now) (RunState.mk [] [] initCache)
  ({ st with programmes := st.programmes ++ (adapt_media_objects E st.cache st.mediaGuide).1 },
   (adapt_media_objects E st.cache st.mediaGuide).2)

/-- The placeholder programmes a single channel contributes during the
catalog loop: the mock guide when it has no schedule URL, nothing
otherwise. -/
def mockPart (E : Ext) (now : Nat) (ch : ChannelElement) : List Programme :=
  match ch.scheduleUrl with
  | none => mockGuide E ch now
  | some _ => []

/-- The normalized media entries a single channel contributes to the media
guide during the catalog loop: its processed schedule when the fetch
succeeds, nothing otherwise. -/
def schedPart (E : Ext) (net : Net) (items : Nat) (ch : ChannelElement) : List MediaElement :=
  match ch.scheduleUrl with
  | some su =>
    match get_json_obj_from_url net.respond net.scheduleOf (getScheduleUrl su items) with
    | none => []
    | some js => (processMedia E ch js.flatten).1
  | none => []

theorem get_media_programmes (E : Ext) (net : Net) (items now : Nat)
    (st : RunState) (ch : ChannelElement) :
    (get_media E net items now st ch).programmes = st.programmes ++ mockPart E now ch := by
  rcases h : ch.scheduleUrl with _ | su
  · simp [get_media, mockPart, h]
  · rcases hj : get_json_obj_from_url net.respond net.scheduleOf (getScheduleUrl su items)
      with _ | js <;> simp [get_media, mockPart, h, hj]

theorem get_media_mediaGuide (E : Ext) (net : Net) (items now : Nat)
    (st : RunState) (ch : ChannelElement) :
    (get_media E net items now st ch).mediaGuide
      = st.mediaGuide ++ schedPart E net items ch := by
  rcases h : ch.scheduleUrl with _ | su
  · simp [get_media, schedPart, h]
  · rcases hj : get_json_obj_from_url net.respond net.scheduleOf (getScheduleUrl su items)
      with _ | js <;> simp [get_media, schedPart, h, hj]

theorem foldl_get_media_programmes (E : Ext) (net : Net) (items now : Nat) :
    ∀ (channels : List ChannelElement) (st : RunState),
      (channels.foldl (get_media E net items now) st).programmes
        = st.programmes ++ (channels.map (mockPart E now)).flatten := by
  intro channels
  induction channels with
  | nil => intro st; simp
  | cons ch rest ih =>
    intro st
    simp only [List.foldl_cons, List.map_cons, List.flatten_cons]
    rw [ih, get_media_programmes, List.append_assoc]

theorem foldl_get_media_mediaGuide (E : Ext) (net : Net) (items now : Nat) :
    ∀ (channels : List ChannelElement) (st : RunState),
      (channels.foldl (get_media E net items now) st).mediaGuide
        = st.mediaGuide ++ (channels.map (schedPart E net items)).flatten := by
  intro channels
  induction channels with
  | nil => intro st; simp
  | cons ch rest ih =>
    intro st
    simp only [List.foldl_cons, List.map_cons, List.flatten_cons]
    rw [ih, get_media_mediaGuide, List.append_assoc]

/-- C2 as amended: a channel without a schedule URL appends exactly 25
placeholder programmes (the rrule until bound is inclusive, so a full day
plus the closing boundary hour), contiguous one-hour blocks starting at the
top of the current hour, each titled with the channel's display name, and
they bypass normalization and enrichment: the media guide and the episode
cache are untouched. -/
theorem claim_C2 (E : Ext) (net : Net) (items now : Nat) (st : RunState)
    (ch : ChannelElement) (h : ch.scheduleUrl = none) :
    ((get_media E net items now st ch).programmes = st.programmes ++ mockGuide E ch now)
    ∧ ((get_media E net items now st ch).mediaGuide = st.mediaGuide)
    ∧ ((get_media E net items now st ch).cache = st.cache)
    ∧ ((mockGuide E ch now).length = 25)
    ∧ (∀ k : Nat, k < 25 →
        (mockGuide E ch now)[k]?
          = some { channel := some ch.id,
                   icon := some [{ src := some ch.icon }],
                   start := some (E.strftime (topOfHour now + 60 * k) NEW_DATE_FORMAT_NO_TZ),
                   stop := some (E.strftime (topOfHour now + 60 * k + 60) NEW_DATE_FORMAT_NO_TZ),
                   title := [{ content := some ch.displayName, lang := some ch.lang }] }) := by
  refine ⟨by simp [get_media, h], by simp [get_media, h], by simp [get_media, h], ?_, ?_⟩
  · simp [mockGuide, rruleHourly]
  · intro k hk
    have hk25 : k < 24 + 1 := by omega
    simp [mockGuide, rruleHourly, List.getElem?_map, List.getElem?_range, hk25,
      get_proper_date_time]

/-- A concrete channel without a schedule URL, for the witnesses and
counterexamples. -/
def chanB : ChannelElement :=
  { id := "chB", displayName := "Channel B", lang := "en", icon := "iconB", url := "urlB" }

/-- A concrete network: the schedule URL of chanA answers with a non-empty
body decoding to the single raw entry entryA; every other URL answers with
an empty body. -/
def netC4 : Net where
  respond := fun u => if u = getScheduleUrl "schedA" 1 then HttpResult.body "payload" else HttpResult.body ""
  scheduleOf := fun _ => [entryA]
  infoOf := fun _ => { queryUrl := none }

/-- Counterexample to C2 as stated: the mock-guide branch appends 25
placeholder programmes, not 24, because the rrule until bound is
inclusive. -/
theorem claim_C2_counterexample :
    (chanB.scheduleUrl = none)
    ∧ ((get_media extId netC4 1 600 (RunState.mk [] [] []) chanB).programmes.length = 25)
    ∧ (25 ≠ 24) := by
  refine ⟨rfl, ?_, by decide⟩
  decide

/-- Witness for the amended C2 on the concrete channel chanB at clock value
600. -/
theorem claim_C2_witness :
    (chanB.scheduleUrl = none)
    ∧ ((get_media extId netC4 1 600 (RunState.mk [] [] []) chanB).programmes
        = [] ++ mockGuide extId chanB 600)
    ∧ ((mockGuide extId chanB 600).length = 25)
    ∧ ((mockGuide extId chanB 600)[0]?
        = some { channel := some chanB.id,
                 icon := some [{ src := some chanB.icon }],
                 start := some (extId.strftime (topOfHour 600 + 60 * 0) NEW_DATE_FORMAT_NO_TZ),
                 stop := some (extId.strftime (topOfHour 600 + 60 * 0 + 60) NEW_DATE_FORMAT_NO_TZ),
                 title := [{ content := some chanB.displayName, lang := some chanB.lang }] }) := by
  have h := claim_C2 extId netC4 1 600 (RunState.mk [] [] []) chanB rfl
  exact ⟨rfl, h.1, h.2.2.2.1, h.2.2.2.2 0 (by decide)⟩

/-- C4 as amended: the final programme list is all placeholder programmes
of schedule-less channels, in catalog order and chronological within each
channel, followed by all scheduled-channel programmes, in catalog order and
per-channel schedule order; catalog order is preserved within each of the
two groups, but every placeholder programme precedes every scheduled
one. -/
theorem claim_C4 (E : Ext) (net : Net) (items now : Nat)
    (channels : List ChannelElement) (initCache : List MediaInfoElement) :
    (runPipeline E net items now channels initCache).1.programmes
      = (channels.map (mockPart E now)).flatten
        ++ (adapt_media_objects E
              (channels.foldl (get_media E net items now) (RunState.mk [] [] initCache)).cache
              ((channels.map (schedPart E net items)).flatten)).1 := by
  show (channels.foldl (get_media E net items now) (RunState.mk [] [] initCache)).programmes
      ++ (adapt_media_objects E
            (channels.foldl (get_media E net items now) (RunState.mk [] [] initCache)).cache
            (channels.foldl (get_media E net items now) (RunState.mk [] [] initCache)).mediaGuide).1
    = _
  rw [foldl_get_media_programmes, foldl_get_media_mediaGuide]
  simp

/-- Counterexample to C4 as stated: with the catalog [chanA, chanB], where
chanA comes first and has a one-entry schedule while chanB has none, all 25
of chanB's placeholder programmes precede chanA's programme in the final
guide, so programmes do not appear in catalog-channel order. -/
theorem claim_C4_counterexample :
    ([chanA, chanB].map (fun c => c.id) = ["chA", "chB"])
    ∧ ((runPipeline extId netC4 1 600 [chanA, chanB] []).1.programmes.map
          (fun p => p.channel)
        = List.replicate 25 (some "chB") ++ [some "chA"]) := by
  constructor
  · rfl
  · decide

/-- C7: a decoded metadata string that is one of the fixed denylisted
literals decodes to absent (None); every other string decodes to itself. -/
theorem claim_C7 (s : String) :
    (s ∈ CustomStringConverter.EXCLUDED_STRINGS →
      CustomStringConverter.deserialize (PyValue.str s) = none)
    ∧ (s ∉ CustomStringConverter.EXCLUDED_STRINGS →
      CustomStringConverter.deserialize (PyValue.str s) = some s) := by
  constructor
  · intro h
    simp [CustomStringConverter.deserialize, h]
  · intro h
    simp [CustomStringConverter.deserialize, h]

/-- Witness for C7 at the concrete denylisted string "IMDbPro" and the
ordinary string "Naruto". -/
theorem claim_C7_witness :
    CustomStringConverter.deserialize (PyValue.str "IMDbPro") = none
    ∧ CustomStringConverter.deserialize (PyValue.str "Naruto") = some "Naruto" :=
  ⟨(claim_C7 "IMDbPro").1 (by decide), (claim_C7 "Naruto").2 (by decide)⟩

/-- C9: the string decoder maps every non-string input to absent (None). -/
theorem claim_C9 (v : PyValue) (h : ∀ s, v ≠ PyValue.str s) :
    CustomStringConverter.deserialize v = none := by
  cases v with
  | str s => exact absurd rfl (h s)
  | intV n => rfl
  | noneV => rfl
  | listV n => rfl

/-- Witness for C9 at the concrete non-string value 3. -/
theorem claim_C9_witness :
    CustomStringConverter.deserialize (PyValue.intV 3) = none :=
  claim_C9 (PyValue.intV 3) (by intro s hs; cases hs)

/-- C10: the timestamp reformatter returns absent (None) instead of raising
on an empty string or a missing (None) input, for every target format. -/
theorem claim_C10 (E : Ext) (fmt : String) :
    get_proper_date_time E (DateTimeValue.str "") fmt = none
    ∧ get_proper_date_time E DateTimeValue.pyNone fmt = none := by
  constructor
  · simp [get_proper_date_time]
  · rfl

end ToonamiAftermath
